import Mathlib

/-!
Verification of the client session manager (`client/session.go`) and the
state machine snapshot round-trip of the dragonboat replicated state
machine application layer.

Machine integers are modelled as `Nat` with explicit reduction modulo
`2 ^ 64` exactly where the Go code's `uint64` arithmetic can wrap.
A Go `panic` is modelled by `Option`: `none` is a fault, `some` a normal
return.
-/

/-- `2 ^ 64`, the modulus of Go's `uint64` arithmetic. -/
def UINT64 : Nat := 2 ^ 64

/-- Special client id marking an entry not managed by a client session. -/
def NotSessionManagedClientID : Nat := 0

/-- Special series id marking a NoOP client session. -/
def NoOPSeriesID : Nat := 0

/-- Special series id used when registering a new client session
(`math.MaxUint64 - 1`). -/
def SeriesIDForRegister : Nat := 2 ^ 64 - 2

/-- Special series id used when unregistering a client session
(`math.MaxUint64`). -/
def SeriesIDForUnregister : Nat := 2 ^ 64 - 1

/-- The first series id to be used for making proposals. -/
def SeriesIDFirstProposal : Nat := 1

/-- The client session record: the consensus group it belongs to
(`ClusterID`), the client identity, the current proposal series id and the
highest series id already responded to. -/
structure Session where
  ClusterID : Nat
  ClientID : Nat
  SeriesID : Nat
  RespondedTo : Nat
deriving Repr, DecidableEq

/-- `NewSession`: draw client ids from `rng` until one differs from
`NotSessionManagedClientID`, then build a session with series id
`NoOPSeriesID + 1`.  The stream of draws is modelled as a list; an
exhausted list means the loop never terminated on that source. -/
def NewSession (clusterID : Nat) : List Nat → Option Session
  | [] => none
  | cid :: rest =>
      if cid ≠ NotSessionManagedClientID then
        some ⟨clusterID, cid, NoOPSeriesID + 1, 0⟩
      else NewSession clusterID rest

/-- `NewNoOPSession`: like `NewSession` but the series id is fixed to
`NoOPSeriesID`. -/
def NewNoOPSession (clusterID : Nat) : List Nat → Option Session
  | [] => none
  | cid :: rest =>
      if cid ≠ NotSessionManagedClientID then
        some ⟨clusterID, cid, NoOPSeriesID, 0⟩
      else NewNoOPSession clusterID rest

/-- `IsNoOPSession`: whether the session instance is a NoOP session. -/
def Session.IsNoOPSession (cs : Session) : Bool :=
  cs.SeriesID == NoOPSeriesID

/-- `assertRegularSession`: panics (`none`) unless the session is regular,
i.e. the client id is managed and the series id is not the NoOP sentinel. -/
def Session.assertRegularSession (cs : Session) : Option Unit :=
  if cs.ClientID = NotSessionManagedClientID ∨ cs.SeriesID = NoOPSeriesID then
    none
  else some ()

/-- `PrepareForRegister`: assert the session is regular, then set the series
id to the register sentinel. -/
def Session.PrepareForRegister (cs : Session) : Option Session :=
  cs.assertRegularSession.bind fun _ =>
    some { cs with SeriesID := SeriesIDForRegister }

/-- `PrepareForUnregister`: assert the session is regular, then set the
series id to the unregister sentinel. -/
def Session.PrepareForUnregister (cs : Session) : Option Session :=
  cs.assertRegularSession.bind fun _ =>
    some { cs with SeriesID := SeriesIDForUnregister }

/-- `PrepareForPropose`: assert the session is regular, then set the series
id to the first series id usable for proposals. -/
def Session.PrepareForPropose (cs : Session) : Option Session :=
  cs.assertRegularSession.bind fun _ =>
    some { cs with SeriesID := SeriesIDFirstProposal }

/-- `ProposalCompleted`: assert the session is regular; if
`SeriesID == RespondedTo + 1` (uint64 arithmetic) set `RespondedTo` to
`SeriesID` and increment `SeriesID`, otherwise panic. -/
def Session.ProposalCompleted (cs : Session) : Option Session :=
  cs.assertRegularSession.bind fun _ =>
    if cs.SeriesID = (cs.RespondedTo + 1) % UINT64 then
      some { cs with RespondedTo := cs.SeriesID,
                     SeriesID := (cs.SeriesID + 1) % UINT64 }
    else none

/-- `ValidForProposal`: whether the session object is valid for making
proposals; panics (`none`) when `RespondedTo > SeriesID`. -/
def Session.ValidForProposal (cs : Session) (clusterID : Nat) : Option Bool :=
  if cs.SeriesID = NoOPSeriesID ∧ cs.ClientID = NotSessionManagedClientID then
    some false
  else if cs.ClusterID ≠ clusterID then
    some false
  else if cs.ClientID = NotSessionManagedClientID then
    some false
  else if cs.SeriesID = SeriesIDForRegister ∨ cs.SeriesID = SeriesIDForUnregister then
    some false
  else if cs.RespondedTo > cs.SeriesID then
    none
  else some true

/-- `ValidForSessionOp`: whether the session is valid for making session
registration or unregistration proposals. -/
def Session.ValidForSessionOp (cs : Session) (clusterID : Nat) : Bool :=
  if cs.ClusterID ≠ clusterID then
    false
  else if cs.ClientID = NotSessionManagedClientID ∨ cs.SeriesID = NoOPSeriesID then
    false
  else if cs.SeriesID = SeriesIDForRegister ∨ cs.SeriesID = SeriesIDForUnregister then
    true
  else false

/-- Modelled from the spec: the Regular (sequential, in-memory) state
machine variant.  The sources only contain the C declarations of
`UpdateDBRegularStateMachine`, `LookupDBRegularStateMachine`,
`GetHashDBRegularStateMachine`, `SaveSnapshotDBRegularStateMachine` and
`RecoverFromSnapshotDBRegularStateMachine`; the implementation is missing,
so the variant is modelled from the spec's verb contract: `Update` applies
one opaque command payload deterministically, `Lookup` is a read-only and
deterministic function of the state, `GetHash` a deterministic digest, and
`SaveSnapshot` and `RecoverFromSnapshot` serialize and restore the whole
state through a byte stream.  State is the sequence of applied payloads;
payloads and the snapshot stream are byte lists. -/
structure RegularStateMachine where
  applied : List (List Nat)
deriving Repr, DecidableEq

/-- Modelled from the spec: a freshly created Regular state machine holds
no applied commands. -/
def RegularStateMachine.create : RegularStateMachine := ⟨[]⟩

/-- Modelled from the spec: `Update` applies one command payload and
returns the new state together with an applied-index marker. -/
def RegularStateMachine.update (sm : RegularStateMachine)
    (payload : List Nat) : RegularStateMachine × Nat :=
  (⟨sm.applied ++ [payload]⟩, sm.applied.length + 1)

/-- Modelled from the spec: `Lookup` is a deterministic read-only query on
the state; here the number of applied commands equal to the query key. -/
def RegularStateMachine.lookup (sm : RegularStateMachine)
    (query : List Nat) : Nat :=
  (sm.applied.filter (fun p => p == query)).length

/-- Modelled from the spec: `GetHash` is a deterministic `uint64` digest of
the current state. -/
def RegularStateMachine.getHash (sm : RegularStateMachine) : Nat :=
  sm.applied.foldl
    (fun h p => (h * 131 + p.foldl (fun a b => (a * 257 + b) % UINT64) 7) % UINT64)
    0

/-- Length-prefixed serialization of a payload sequence into one byte
stream. -/
def encodePayloads : List (List Nat) → List Nat
  | [] => []
  | p :: rest => p.length :: (p ++ encodePayloads rest)

/-- Inverse of `encodePayloads`; `none` on a corrupt stream. -/
def decodePayloads : List Nat → Option (List (List Nat))
  | [] => some []
  | n :: rest =>
      if _h : n ≤ rest.length then
        match decodePayloads (rest.drop n) with
        | some ps => some (rest.take n :: ps)
        | none => none
      else none
termination_by l => l.length
decreasing_by
  simp only [List.length_drop, List.length_cons]
  omega

/-- Modelled from the spec: `SaveSnapshot` streams a serialized snapshot of
the whole state through the writer. -/
def RegularStateMachine.saveSnapshot (sm : RegularStateMachine) : List Nat :=
  encodePayloads sm.applied

/-- Modelled from the spec: `RecoverFromSnapshot` rebuilds a state machine
from the serialized stream, failing on corrupt data. -/
def RegularStateMachine.recoverFromSnapshot
    (stream : List Nat) : Option RegularStateMachine :=
  (decodePayloads stream).map fun ps => ⟨ps⟩

/-- Apply a sequence of committed update payloads, in commit order, to a
fresh Regular state machine. -/
def RegularStateMachine.applyAll (updates : List (List Nat)) : RegularStateMachine :=
  updates.foldl (fun sm p => (sm.update p).1) RegularStateMachine.create


/-- Any session produced by `NewSession` has the requested cluster id, a
managed client id, series id `NoOPSeriesID + 1` and `RespondedTo = 0`. -/
theorem newSession_shape : ∀ {draws : List Nat} {cid : Nat} {u : Session},
    NewSession cid draws = some u →
    u.ClusterID = cid ∧ u.ClientID ≠ NotSessionManagedClientID ∧
    u.SeriesID = NoOPSeriesID + 1 ∧ u.RespondedTo = 0 := by
  intro draws
  induction draws with
  | nil => intro cid u h; simp [NewSession] at h
  | cons c rest ih =>
      intro cid u h
      rw [NewSession] at h
      split at h
      · rename_i hc
        cases h
        exact ⟨rfl, hc, rfl, rfl⟩
      · exact ih h

/-- Any session produced by `NewNoOPSession` has the requested cluster id,
a managed client id, series id `NoOPSeriesID` and `RespondedTo = 0`. -/
theorem newNoOPSession_shape : ∀ {draws : List Nat} {cid : Nat} {u : Session},
    NewNoOPSession cid draws = some u →
    u.ClusterID = cid ∧ u.ClientID ≠ NotSessionManagedClientID ∧
    u.SeriesID = NoOPSeriesID ∧ u.RespondedTo = 0 := by
  intro draws
  induction draws with
  | nil => intro cid u h; simp [NewNoOPSession] at h
  | cons c rest ih =>
      intro cid u h
      rw [NewNoOPSession] at h
      split at h
      · rename_i hc
        cases h
        exact ⟨rfl, hc, rfl, rfl⟩
      · exact ih h

/-- `NewSession` succeeds on every draw stream containing a managed client
id. -/
theorem newSession_total : ∀ {draws : List Nat} {cid : Nat},
    (∃ x ∈ draws, x ≠ NotSessionManagedClientID) →
    (NewSession cid draws).isSome = true := by
  intro draws
  induction draws with
  | nil => intro cid h; simp at h
  | cons c rest ih =>
      intro cid h
      rw [NewSession]
      split
      · rfl
      · rename_i hc
        rcases h with ⟨x, hx, hxne⟩
        rcases List.mem_cons.mp hx with rfl | hmem
        · exact absurd hxne hc
        · exact ih ⟨x, hmem, hxne⟩

/-- C1, counterexample.  With `ClientID = 42`, `SeriesID = 1`,
`RespondedTo = 0`, the first `ProposalCompleted` yields `SeriesID = 2`,
`RespondedTo = 1`; calling it again without an intervening
`PrepareForPropose` does NOT fault: the precondition
`SeriesID == RespondedTo + 1` holds again and the call succeeds. -/
theorem C1_counterexample :
    Session.ProposalCompleted ⟨0, 42, 1, 0⟩ = some ⟨0, 42, 2, 1⟩ ∧
    Session.ProposalCompleted ⟨0, 42, 2, 1⟩ = some ⟨0, 42, 3, 2⟩ := by decide

/-- C1, amended.  For a regular session, `ProposalCompleted` requires
`SeriesID == RespondedTo + 1` (uint64 arithmetic) and on success sets
`RespondedTo = SeriesID` then increments `SeriesID`; when the precondition
fails on a regular session the call faults.  Concretely, with
`ClientID = 42`, `SeriesID = 1`, `RespondedTo = 0` one call yields
`RespondedTo = 1`, `SeriesID = 2`, and a second call without an
intervening `PrepareForPropose` succeeds again, yielding
`RespondedTo = 2`, `SeriesID = 3`. -/
theorem C1_amended_proposalCompleted (cs : Session)
    (hc : cs.ClientID ≠ NotSessionManagedClientID)
    (hs : cs.SeriesID ≠ NoOPSeriesID)
    (hseq : cs.SeriesID = (cs.RespondedTo + 1) % UINT64) :
    cs.ProposalCompleted =
      some ⟨cs.ClusterID, cs.ClientID, (cs.SeriesID + 1) % UINT64, cs.SeriesID⟩ ∧
    (∀ t : Session, t.ClientID ≠ NotSessionManagedClientID →
        t.SeriesID ≠ NoOPSeriesID → t.SeriesID ≠ (t.RespondedTo + 1) % UINT64 →
        t.ProposalCompleted = none) ∧
    Session.ProposalCompleted ⟨0, 42, 1, 0⟩ = some ⟨0, 42, 2, 1⟩ ∧
    Session.ProposalCompleted ⟨0, 42, 2, 1⟩ = some ⟨0, 42, 3, 2⟩ := by
  refine ⟨?_, ?_, by decide, by decide⟩
  · have hs' : (cs.RespondedTo + 1) % UINT64 ≠ NoOPSeriesID := hseq ▸ hs
    simp [Session.ProposalCompleted, Session.assertRegularSession, hc, hs, hseq, hs']
  · intro t h1 h2 h3
    simp [Session.ProposalCompleted, Session.assertRegularSession, h1, h2, h3]

/-- C1, witness: the amended theorem applied to the spec's concrete
scenario. -/
theorem C1_amended_witness :
    Session.ProposalCompleted ⟨9, 42, 1, 0⟩ = some ⟨9, 42, 2, 1⟩ :=
  (C1_amended_proposalCompleted ⟨9, 42, 1, 0⟩ (by decide) (by decide)
    (by decide)).1

/-- C2, counterexample.  The session `⟨0, 1, 10, 5⟩` is regular and
satisfies `RespondedTo ≤ SeriesID`, yet `PrepareForPropose` returns
normally with `SeriesID = 1 < RespondedTo = 5`: the invariant is not
preserved by every normally-returning operation on every state satisfying
it. -/
theorem C2_counterexample :
    (Session.mk 0 1 10 5).RespondedTo ≤ (Session.mk 0 1 10 5).SeriesID ∧
    Session.PrepareForPropose ⟨0, 1, 10, 5⟩ = some ⟨0, 1, 1, 5⟩ ∧
    ¬ (Session.mk 0 1 1 5).RespondedTo ≤ (Session.mk 0 1 1 5).SeriesID := by
  decide

/-- C2, amended.  `RespondedTo ≤ SeriesID` is established by `NewSession`
and `NewNoOPSession`.  It is preserved by `PrepareForUnregister` for any
in-range `RespondedTo`; by `PrepareForRegister` when
`RespondedTo ≤ SeriesIDForRegister`; by `PrepareForPropose` when
`RespondedTo ≤ SeriesIDFirstProposal`; and by `ProposalCompleted` whenever
the incremented series id does not wrap (`SeriesID` in range and not the
unregister sentinel).  Without those bounds the operations can set
`SeriesID` below `RespondedTo`. -/
theorem C2_amended_invariant (s t : Session)
    (hrange : s.RespondedTo < UINT64) :
    (∀ cid : Nat, ∀ draws : List Nat, ∀ u : Session,
        NewSession cid draws = some u → u.RespondedTo ≤ u.SeriesID) ∧
    (∀ cid : Nat, ∀ draws : List Nat, ∀ u : Session,
        NewNoOPSession cid draws = some u → u.RespondedTo ≤ u.SeriesID) ∧
    (s.PrepareForUnregister = some t → t.RespondedTo ≤ t.SeriesID) ∧
    (s.RespondedTo ≤ SeriesIDForRegister → s.PrepareForRegister = some t →
        t.RespondedTo ≤ t.SeriesID) ∧
    (s.RespondedTo ≤ SeriesIDFirstProposal → s.PrepareForPropose = some t →
        t.RespondedTo ≤ t.SeriesID) ∧
    (s.SeriesID ≠ SeriesIDForUnregister → s.SeriesID < UINT64 →
        s.ProposalCompleted = some t → t.RespondedTo ≤ t.SeriesID) := by
  refine ⟨?_, ?_, ?_, ?_, ?_, ?_⟩
  · intro cid draws u h
    rcases newSession_shape h with ⟨-, -, h3, h4⟩
    rw [h3, h4]
    exact Nat.zero_le _
  · intro cid draws u h
    rcases newNoOPSession_shape h with ⟨-, -, h3, h4⟩
    rw [h3, h4]
    exact Nat.zero_le _
  · intro h
    by_cases hreg : s.ClientID = NotSessionManagedClientID ∨ s.SeriesID = NoOPSeriesID
    · simp [Session.PrepareForUnregister, Session.assertRegularSession, hreg] at h
    · simp [Session.PrepareForUnregister, Session.assertRegularSession, hreg] at h
      subst h
      show s.RespondedTo ≤ SeriesIDForUnregister
      simp only [SeriesIDForUnregister]
      simp only [UINT64] at hrange
      omega
  · intro hb h
    by_cases hreg : s.ClientID = NotSessionManagedClientID ∨ s.SeriesID = NoOPSeriesID
    · simp [Session.PrepareForRegister, Session.assertRegularSession, hreg] at h
    · simp [Session.PrepareForRegister, Session.assertRegularSession, hreg] at h
      subst h
      exact hb
  · intro hb h
    by_cases hreg : s.ClientID = NotSessionManagedClientID ∨ s.SeriesID = NoOPSeriesID
    · simp [Session.PrepareForPropose, Session.assertRegularSession, hreg] at h
    · simp [Session.PrepareForPropose, Session.assertRegularSession, hreg] at h
      subst h
      exact hb
  · intro hne hlt h
    by_cases hreg : s.ClientID = NotSessionManagedClientID ∨ s.SeriesID = NoOPSeriesID
    · simp [Session.ProposalCompleted, Session.assertRegularSession, hreg] at h
    · simp only [Session.ProposalCompleted, Session.assertRegularSession, hreg,
        if_false, ite_false, Option.bind_some] at h
      split at h
      · cases h
        show s.SeriesID ≤ (s.SeriesID + 1) % UINT64
        have hsucc : s.SeriesID + 1 < UINT64 := by
          simp only [SeriesIDForUnregister] at hne
          simp only [UINT64] at hlt ⊢
          omega
        rw [Nat.mod_eq_of_lt hsucc]
        exact Nat.le_succ _
      · exact absurd h (by simp)

/-- C2, witness: the amended theorem applied to a fresh session after one
completed proposal. -/
theorem C2_amended_witness :
    (Session.mk 0 1 2 1).RespondedTo ≤ (Session.mk 0 1 2 1).SeriesID :=
  (C2_amended_invariant ⟨0, 1, 1, 0⟩ ⟨0, 1, 2, 1⟩ (by decide)).2.2.2.2.2
    (by decide) (by decide) (by decide)

/-- C3, counterexample.  A session whose `SeriesID` is the NoOP sentinel
but whose `ClientID` is managed is accepted by `ValidForProposal`: the
claim that it returns false for all three sentinel series ids fails at the
NoOP sentinel. -/
theorem C3_counterexample :
    (Session.mk 7 1 0 0).SeriesID = NoOPSeriesID ∧
    Session.ValidForProposal ⟨7, 1, 0, 0⟩ 7 = some true := by decide

/-- C3, amended.  `ValidForProposal` returns false whenever `SeriesID` is
the register or unregister sentinel, and for the NoOP sentinel only when
`ClientID` is also the unmanaged sentinel; it returns true for any
`SeriesID` outside the sentinels when the session has a managed client id,
a non-NoOP series id, a matching group id and `RespondedTo ≤ SeriesID`. -/
theorem C3_amended_validForProposal (s : Session) (g : Nat)
    (hc : s.ClientID ≠ NotSessionManagedClientID)
    (hn : s.SeriesID ≠ NoOPSeriesID)
    (hr : s.SeriesID ≠ SeriesIDForRegister)
    (hu : s.SeriesID ≠ SeriesIDForUnregister)
    (hg : s.ClusterID = g)
    (hinv : s.RespondedTo ≤ s.SeriesID) :
    s.ValidForProposal g = some true ∧
    (∀ t : Session, ∀ g2 : Nat,
        t.SeriesID = SeriesIDForRegister ∨ t.SeriesID = SeriesIDForUnregister →
        t.ValidForProposal g2 = some false) ∧
    (∀ t : Session, ∀ g2 : Nat,
        t.SeriesID = NoOPSeriesID → t.ClientID = NotSessionManagedClientID →
        t.ValidForProposal g2 = some false) := by
  refine ⟨?_, ?_, ?_⟩
  · have h5 : ¬ s.RespondedTo > s.SeriesID := not_lt.mpr hinv
    simp [Session.ValidForProposal, hc, hn, hr, hu, hg, h5]
  · intro t g2 hsent
    have hne : ¬ (t.SeriesID = NoOPSeriesID ∧ t.ClientID = NotSessionManagedClientID) := by
      rcases hsent with h | h <;> · rw [h]; simp [SeriesIDForRegister,
        SeriesIDForUnregister, NoOPSeriesID]
    unfold Session.ValidForProposal
    rw [if_neg hne]
    by_cases hcl : t.ClusterID ≠ g2
    · rw [if_pos hcl]
    · rw [if_neg hcl]
      by_cases hcid : t.ClientID = NotSessionManagedClientID
      · rw [if_pos hcid]
      · rw [if_neg hcid, if_pos hsent]
  · intro t g2 h0 hc0
    unfold Session.ValidForProposal
    rw [if_pos ⟨h0, hc0⟩]

/-- C3, witness: a regular in-range session with matching group id is
valid for proposals. -/
theorem C3_amended_witness :
    Session.ValidForProposal ⟨7, 1, 5, 3⟩ 7 = some true :=
  (C3_amended_validForProposal ⟨7, 1, 5, 3⟩ 7 (by decide) (by decide)
    (by decide) (by decide) (by decide) (by decide)).1

/-- C4.  Each of `PrepareForRegister`, `PrepareForUnregister` and
`PrepareForPropose` faults when the session is not regular (`ClientID`
unmanaged or `SeriesID` the NoOP sentinel); on a regular session they set
`SeriesID` to the register sentinel, the unregister sentinel and the
first-proposal value respectively, leaving `ClusterID`, `ClientID` and
`RespondedTo` unchanged. -/
theorem C4_prepare_assert (s : Session) :
    ((s.ClientID = NotSessionManagedClientID ∨ s.SeriesID = NoOPSeriesID) →
        s.PrepareForRegister = none ∧ s.PrepareForUnregister = none ∧
        s.PrepareForPropose = none) ∧
    (s.ClientID ≠ NotSessionManagedClientID → s.SeriesID ≠ NoOPSeriesID →
        s.PrepareForRegister =
          some ⟨s.ClusterID, s.ClientID, SeriesIDForRegister, s.RespondedTo⟩ ∧
        s.PrepareForUnregister =
          some ⟨s.ClusterID, s.ClientID, SeriesIDForUnregister, s.RespondedTo⟩ ∧
        s.PrepareForPropose =
          some ⟨s.ClusterID, s.ClientID, SeriesIDFirstProposal, s.RespondedTo⟩) := by
  constructor
  · intro h
    refine ⟨?_, ?_, ?_⟩ <;>
      simp [Session.PrepareForRegister, Session.PrepareForUnregister,
        Session.PrepareForPropose, Session.assertRegularSession, h]
  · intro h1 h2
    refine ⟨?_, ?_, ?_⟩ <;>
      simp [Session.PrepareForRegister, Session.PrepareForUnregister,
        Session.PrepareForPropose, Session.assertRegularSession, h1, h2]

/-- C4, witness: the three prepare operations on the regular session
`⟨3, 9, 4, 2⟩`. -/
theorem C4_prepare_assert_witness :
    Session.PrepareForRegister ⟨3, 9, 4, 2⟩ =
      some ⟨3, 9, SeriesIDForRegister, 2⟩ ∧
    Session.PrepareForUnregister ⟨3, 9, 4, 2⟩ =
      some ⟨3, 9, SeriesIDForUnregister, 2⟩ ∧
    Session.PrepareForPropose ⟨3, 9, 4, 2⟩ =
      some ⟨3, 9, SeriesIDFirstProposal, 2⟩ :=
  (C4_prepare_assert ⟨3, 9, 4, 2⟩).2 (by decide) (by decide)

/-- C5.  Every session returned by `NewSession` has a managed (nonzero)
client id, the requested cluster id, `SeriesID = SeriesIDFirstProposal`
and `RespondedTo = 0`; and `NewSession` succeeds on every draw stream
containing a managed client id (it redraws past unmanaged ones). -/
theorem C5_newSession (clusterID : Nat) (draws : List Nat) (s : Session)
    (h : NewSession clusterID draws = some s) :
    s.ClientID ≠ NotSessionManagedClientID ∧ s.ClusterID = clusterID ∧
    s.SeriesID = SeriesIDFirstProposal ∧ s.RespondedTo = 0 ∧
    (∀ cid : Nat, ∀ d : List Nat,
        (∃ x ∈ d, x ≠ NotSessionManagedClientID) →
        (NewSession cid d).isSome = true) := by
  rcases newSession_shape h with ⟨h1, h2, h3, h4⟩
  exact ⟨h2, h1, h3, h4, fun cid d hd => newSession_total hd⟩

/-- C5, witness: the source `[0, 7]` is redrawn past the unmanaged id `0`
and yields the session `⟨5, 7, 1, 0⟩`. -/
theorem C5_newSession_witness :
    (Session.mk 5 7 1 0).ClientID ≠ NotSessionManagedClientID ∧
    (Session.mk 5 7 1 0).ClusterID = 5 ∧
    (Session.mk 5 7 1 0).SeriesID = SeriesIDFirstProposal ∧
    (Session.mk 5 7 1 0).RespondedTo = 0 ∧
    (∀ cid : Nat, ∀ d : List Nat,
        (∃ x ∈ d, x ≠ NotSessionManagedClientID) →
        (NewSession cid d).isSome = true) :=
  C5_newSession 5 [0, 7] ⟨5, 7, 1, 0⟩ (by decide)

/-- C6.  Every session returned by `NewNoOPSession` has
`SeriesID = NoOPSeriesID` and satisfies `IsNoOPSession`; every session
returned by `NewSession` does not; and `IsNoOPSession` holds exactly when
`SeriesID` equals the NoOP sentinel. -/
theorem C6_noopSession (cid cid2 : Nat) (d d2 : List Nat) (s t : Session)
    (hs : NewNoOPSession cid d = some s) (ht : NewSession cid2 d2 = some t) :
    s.SeriesID = NoOPSeriesID ∧ s.IsNoOPSession = true ∧
    t.IsNoOPSession = false ∧
    (∀ u : Session, u.IsNoOPSession = true ↔ u.SeriesID = NoOPSeriesID) := by
  rcases newNoOPSession_shape hs with ⟨-, -, hs3, -⟩
  rcases newSession_shape ht with ⟨-, -, ht3, -⟩
  refine ⟨hs3, ?_, ?_, fun u => ?_⟩
  · simp [Session.IsNoOPSession, hs3]
  · simp [Session.IsNoOPSession, ht3, NoOPSeriesID]
  · simp [Session.IsNoOPSession]

/-- C6, witness: concrete NoOP and regular sessions from the draw stream
`[4]`. -/
theorem C6_noopSession_witness :
    (Session.mk 5 4 0 0).SeriesID = NoOPSeriesID ∧
    (Session.mk 5 4 0 0).IsNoOPSession = true ∧
    (Session.mk 6 9 1 0).IsNoOPSession = false ∧
    (∀ u : Session, u.IsNoOPSession = true ↔ u.SeriesID = NoOPSeriesID) :=
  C6_noopSession 5 6 [4] [9] ⟨5, 4, 0, 0⟩ ⟨6, 9, 1, 0⟩ (by decide) (by decide)

/-- C7.  `ValidForProposal` never faults on a session satisfying
`RespondedTo ≤ SeriesID`, and it faults (rather than returning a boolean)
on any session that passes all the preceding validation checks but has
`RespondedTo > SeriesID`. -/
theorem C7_validForProposal_assert (s : Session) (g : Nat)
    (hinv : s.RespondedTo ≤ s.SeriesID) :
    (s.ValidForProposal g).isSome = true ∧
    (∀ t : Session, ∀ g2 : Nat,
        ¬(t.SeriesID = NoOPSeriesID ∧ t.ClientID = NotSessionManagedClientID) →
        t.ClusterID = g2 → t.ClientID ≠ NotSessionManagedClientID →
        ¬(t.SeriesID = SeriesIDForRegister ∨ t.SeriesID = SeriesIDForUnregister) →
        t.SeriesID < t.RespondedTo → t.ValidForProposal g2 = none) := by
  constructor
  · unfold Session.ValidForProposal
    split
    · rfl
    split
    · rfl
    split
    · rfl
    split
    · rfl
    split
    · omega
    · rfl
  · intro t g2 h1 h2 h3 h4 h5
    unfold Session.ValidForProposal
    rw [if_neg h1, if_neg (fun hn => hn h2), if_neg h3, if_neg h4, if_pos h5]

/-- C7, witness: a fresh regular session is validated without faulting. -/
theorem C7_validForProposal_witness :
    (Session.ValidForProposal ⟨0, 1, 1, 0⟩ 0).isSome = true :=
  (C7_validForProposal_assert ⟨0, 1, 1, 0⟩ 0 (by decide)).1

/-- C8.  `ValidForSessionOp` returns true only when `SeriesID` is exactly
the register or unregister sentinel and the group id matches; for any
other `SeriesID` or a mismatched group id it returns false. -/
theorem C8_validForSessionOp (s : Session) (g : Nat) :
    (s.ValidForSessionOp g = true →
        (s.SeriesID = SeriesIDForRegister ∨ s.SeriesID = SeriesIDForUnregister) ∧
        s.ClusterID = g) ∧
    ((s.SeriesID ≠ SeriesIDForRegister ∧ s.SeriesID ≠ SeriesIDForUnregister) ∨
        s.ClusterID ≠ g → s.ValidForSessionOp g = false) := by
  constructor
  · intro h
    unfold Session.ValidForSessionOp at h
    split at h
    · exact absurd h (by simp)
    split at h
    · exact absurd h (by simp)
    split at h
    · rename_i hcl hreg hsent
      exact ⟨hsent, not_not.mp hcl⟩
    · exact absurd h (by simp)
  · intro h
    unfold Session.ValidForSessionOp
    by_cases h1 : s.ClusterID ≠ g
    · rw [if_pos h1]
    · rw [if_neg h1]
      by_cases h2 : s.ClientID = NotSessionManagedClientID ∨ s.SeriesID = NoOPSeriesID
      · rw [if_pos h2]
      · rw [if_neg h2]
        have h3 : ¬(s.SeriesID = SeriesIDForRegister ∨
            s.SeriesID = SeriesIDForUnregister) := by
          rcases h with ⟨ha, hb⟩ | hcl
          · rintro (hx | hx)
            · exact ha hx
            · exact hb hx
          · exact absurd hcl h1
        rw [if_neg h3]

/-- C8, witness: an ordinary proposal series id is rejected for session
operations. -/
theorem C8_validForSessionOp_witness :
    Session.ValidForSessionOp ⟨0, 1, 5, 0⟩ 0 = false :=
  (C8_validForSessionOp ⟨0, 1, 5, 0⟩ 0).2 (Or.inl ⟨by decide, by decide⟩)

/-- C10.  Every session returned by `NewNoOPSession` has a managed
(nonzero) client id, and whether a session is a NoOP session is determined
solely by its `SeriesID`: two sessions with equal `SeriesID` agree on
`IsNoOPSession` whatever their client ids. -/
theorem C10_noop_clientID (cid : Nat) (d : List Nat) (s : Session)
    (h : NewNoOPSession cid d = some s) :
    s.ClientID ≠ NotSessionManagedClientID ∧ s.IsNoOPSession = true ∧
    (∀ u v : Session, u.SeriesID = v.SeriesID →
        u.IsNoOPSession = v.IsNoOPSession) := by
  rcases newNoOPSession_shape h with ⟨-, h2, h3, -⟩
  refine ⟨h2, by simp [Session.IsNoOPSession, h3], fun u v huv => ?_⟩
  simp [Session.IsNoOPSession, huv]

/-- C10, witness: a concrete NoOP session with managed client id `3`. -/
theorem C10_noop_clientID_witness :
    (Session.mk 1 3 0 0).ClientID ≠ NotSessionManagedClientID ∧
    (Session.mk 1 3 0 0).IsNoOPSession = true ∧
    (∀ u v : Session, u.SeriesID = v.SeriesID →
        u.IsNoOPSession = v.IsNoOPSession) :=
  C10_noop_clientID 1 [3] ⟨1, 3, 0, 0⟩ (by decide)

/-- Decoding inverts the length-prefixed encoding of a payload
sequence. -/
theorem decodePayloads_encodePayloads (ps : List (List Nat)) :
    decodePayloads (encodePayloads ps) = some ps := by
  induction ps with
  | nil => rw [encodePayloads, decodePayloads]
  | cons p rest ih =>
      rw [encodePayloads, decodePayloads]
      have hlen : p.length ≤ (p ++ encodePayloads rest).length := by
        simp
      rw [dif_pos hlen, List.drop_left, ih, List.take_left]

/-- C9.  For any sequence of updates applied in commit order to a fresh
Regular state machine, `SaveSnapshot` followed by `RecoverFromSnapshot`
into a new instance succeeds and yields the same digest and identical
`Lookup` results for every query key. -/
theorem C9_snapshot_roundtrip (updates : List (List Nat)) :
    ∃ sm2 : RegularStateMachine,
      RegularStateMachine.recoverFromSnapshot
          (RegularStateMachine.applyAll updates).saveSnapshot = some sm2 ∧
      sm2.getHash = (RegularStateMachine.applyAll updates).getHash ∧
      ∀ q : List Nat,
        sm2.lookup q = (RegularStateMachine.applyAll updates).lookup q := by
  refine ⟨RegularStateMachine.applyAll updates, ?_, rfl, fun q => rfl⟩
  unfold RegularStateMachine.recoverFromSnapshot RegularStateMachine.saveSnapshot
  rw [decodePayloads_encodePayloads]
  rfl
